import Mathlib

/-!
Verification of the hostpath-provisioner operator controller
(`hostpathprovisioner_controller.go`).

The controller's pure logic and its control flow over the cluster client are
shallowly embedded: every cluster read or write that a function performs is
supplied as an explicit `Except`/`Option` input (the outcome the client call
would have produced), and the functions below reproduce the Go control flow
over those outcomes.  Machine integers from the Kubernetes API (`int32`
counters) are modelled as `Int`; Go's `(T, error)` returns are modelled as
products with `Option Err` or as `Except Err T`.
-/

namespace Hpp

/-- Errors are modelled by their message strings. -/
abbrev Err := String

/-- The part of `reconcile.Result` the controller uses: `RequeueAfter`,
modelled in whole seconds (`time.Second` = 1). -/
structure Result where
  requeueAfter : Nat
  deriving DecidableEq, Repr

/-- The zero `reconcile.Result{}`. -/
def Result.empty : Result := ⟨0⟩

/-- `time.Second`, in the units of `Result.requeueAfter`. -/
def timeSecond : Nat := 1

/-- A status condition, from the custom-resource-status conditions library:
`{Type, Status, Reason, Message, LastTransitionTime, LastHeartbeatTime}`.
Statuses are the strings `"True"`, `"False"`, `"Unknown"`; times are modelled
as `Nat` instants. -/
structure Condition where
  type : String
  status : String
  reason : String
  message : String
  lastTransitionTime : Nat
  lastHeartbeatTime : Nat
  deriving DecidableEq, Repr

/-- `HostPathProvisionerStatus`: the conditions list plus the three version
fields, and the per-storage-pool status list (modelled opaquely as strings). -/
structure HostPathProvisionerStatus where
  conditions : List Condition
  operatorVersion : String
  targetVersion : String
  observedVersion : String
  storagePoolStatuses : List String
  deriving DecidableEq, Repr

/-- The spec fields the embedded logic reads: `PathConfig` presence decides
legacy mode, `FeatureGates` is a name list. -/
structure HostPathProvisionerSpec where
  pathConfig : Option Unit
  featureGates : List String
  deriving DecidableEq, Repr

/-- The custom resource: spec, status, finalizers, deletion timestamp. -/
structure HostPathProvisioner where
  spec : HostPathProvisionerSpec
  status : HostPathProvisionerStatus
  finalizers : List String
  deletionTimestamp : Option Nat
  deriving DecidableEq, Repr

instance : Inhabited HostPathProvisioner :=
  ⟨⟨⟨none, []⟩, ⟨[], "", "", "", []⟩, [], none⟩⟩

/-- The status counters of a `DaemonSet` that the controller reads
(`int32` in the API, modelled as `Int`). -/
structure DaemonSetStatus where
  numberReady : Int
  desiredNumberScheduled : Int
  deriving DecidableEq, Repr

/-- The zero value `&appsv1.DaemonSet{}` (status counters all zero). -/
def DaemonSetStatus.zero : DaemonSetStatus := ⟨0, 0⟩

/-! ## Version gate -/

/-- Modelled from the spec: `version.GetVersionFromString` lives in the
`version` package, which is not among the provided sources.  Per the spec a
"structured version" is a semantic `major.minor.patch` version; the source
notes "semver doesn't like the 'v' prefix", so a leading `v` is stripped before
parsing. -/
structure Version where
  major : Nat
  minor : Nat
  patch : Nat
  deriving DecidableEq, Repr

/-- Render a structured version back to `major.minor.patch` text. -/
def Version.str (v : Version) : String :=
  toString v.major ++ "." ++ toString v.minor ++ "." ++ toString v.patch

/-- Semantic-version comparison: `-1` when `a < b`, `0` when equal, `1` when
`a > b`, lexicographically on (major, minor, patch). -/
def verCompare (a b : Version) : Int :=
  if a.major < b.major then -1
  else if b.major < a.major then 1
  else if a.minor < b.minor then -1
  else if b.minor < a.minor then 1
  else if a.patch < b.patch then -1
  else if b.patch < a.patch then 1
  else 0

/-- Split a character list into the groups between `'.'` separators. -/
def splitDots : List Char → List (List Char)
  | [] => [[]]
  | c :: rest =>
    let r := splitDots rest
    if c = '.' then [] :: r
    else
      match r with
      | [] => [[c]]
      | g :: gs => (c :: g) :: gs

/-- Parse a non-empty all-digit character group as a natural number. -/
def digitsToNat? (cs : List Char) : Option Nat :=
  if cs = [] then none
  else
    cs.foldl
      (fun acc c =>
        match acc with
        | none => none
        | some n => if c.isDigit then some (n * 10 + (c.toNat - 48)) else none)
      (some 0)

/-- Modelled from the spec: `version.GetVersionFromString` (not among the
provided sources) parses a string, with an optional leading `v`, as a
structured `major.minor.patch` version; anything else (e.g. a non-semantic
build tag) fails to parse. -/
def GetVersionFromString (s : String) : Option Version :=
  let cs :=
    match s.toList with
    | 'v' :: rest => rest
    | cs => cs
  match (splitDots cs).map digitsToNat? with
  | [some major, some minor, some patch] => some ⟨major, minor, patch⟩
  | _ => none

/-- `canUpgrade` (source lines 563-587): decides whether moving from the
observed `current` version to `target` is allowed. -/
def canUpgrade (current target : String) : Except Err Bool :=
  if current = "" then
    -- Can't upgrade if no current is set
    Except.ok false
  else if target = current then
    Except.ok false
  else
    match GetVersionFromString target, GetVersionFromString current with
    | some targetSemver, some currentSemver =>
      if verCompare targetSemver currentSemver < 0 then
        Except.error ("operator downgraded from " ++ currentSemver.str ++ " to "
          ++ targetSemver.str ++ ", will not reconcile")
      else if verCompare targetSemver currentSemver = 0 then
        Except.ok false
      else
        Except.ok true
    | _, _ => Except.ok true

theorem verCompare_self (v : Version) : verCompare v v = 0 := by
  simp [verCompare]

theorem getVersionFromString_empty : GetVersionFromString "" = none := by
  decide

/-- Claim C1: `canUpgrade(observed, target)` returns `(false, nil)` when
observed is empty; `(false, nil)` when observed equals target; an error when
both parse as structured versions and target is strictly older than observed;
`(true, nil)` when both parse and target is strictly newer; and `(true, nil)`
when the strings differ and either one fails to parse as a structured
version. -/
theorem canUpgrade_spec :
    (∀ target, canUpgrade "" target = Except.ok false) ∧
    (∀ v, canUpgrade v v = Except.ok false) ∧
    (∀ current target cv tv,
      GetVersionFromString current = some cv →
      GetVersionFromString target = some tv →
      verCompare tv cv < 0 →
      ∃ e, canUpgrade current target = Except.error e) ∧
    (∀ current target cv tv,
      GetVersionFromString current = some cv →
      GetVersionFromString target = some tv →
      0 < verCompare tv cv →
      canUpgrade current target = Except.ok true) ∧
    (∀ current target, current ≠ "" → target ≠ current →
      (GetVersionFromString current = none ∨ GetVersionFromString target = none) →
      canUpgrade current target = Except.ok true) := by
  refine ⟨?_, ?_, ?_, ?_, ?_⟩
  · intro target
    simp [canUpgrade]
  · intro v
    by_cases h : v = "" <;> simp [canUpgrade, h]
  · intro current target cv tv hc ht hlt
    have hne : current ≠ "" := by
      intro h
      rw [h, getVersionFromString_empty] at hc
      exact Option.noConfusion hc
    have hnet : target ≠ current := by
      intro h
      rw [h, hc] at ht
      have : cv = tv := Option.some.inj ht
      rw [this, verCompare_self] at hlt
      omega
    refine ⟨"operator downgraded from " ++ cv.str ++ " to " ++ tv.str
      ++ ", will not reconcile", ?_⟩
    simp only [canUpgrade, if_neg hne, if_neg hnet, hc, ht, if_pos hlt]
  · intro current target cv tv hc ht hgt
    have hne : current ≠ "" := by
      intro h
      rw [h, getVersionFromString_empty] at hc
      exact Option.noConfusion hc
    have hnet : target ≠ current := by
      intro h
      rw [h, hc] at ht
      have : cv = tv := Option.some.inj ht
      rw [this, verCompare_self] at hgt
      omega
    have h1 : ¬ verCompare tv cv < 0 := by omega
    have h2 : ¬ verCompare tv cv = 0 := by omega
    simp only [canUpgrade, if_neg hne, if_neg hnet, hc, ht, if_neg h1, if_neg h2]
  · intro current target hne hnet hp
    rcases hp with h | h
    · cases htv : GetVersionFromString target <;>
        simp [canUpgrade, if_neg hne, if_neg hnet, h, htv]
    · cases hcv : GetVersionFromString current <;>
        simp [canUpgrade, if_neg hne, if_neg hnet, h, hcv]

/-- Closed instances of `canUpgrade_spec` at the spec's own examples. -/
theorem canUpgrade_spec_witness :
    (∃ e, canUpgrade "1.2.0" "1.1.0" = Except.error e) ∧
    canUpgrade "1.1.0" "1.2.0" = Except.ok true ∧
    canUpgrade "1.2.0" "1.2.0" = Except.ok false ∧
    canUpgrade "" "1.0.0" = Except.ok false ∧
    canUpgrade "1.1.0" "devel-build" = Except.ok true := by
  refine ⟨canUpgrade_spec.2.2.1 "1.2.0" "1.1.0" ⟨1, 2, 0⟩ ⟨1, 1, 0⟩
      (by decide) (by decide) (by decide),
    canUpgrade_spec.2.2.2.1 "1.1.0" "1.2.0" ⟨1, 1, 0⟩ ⟨1, 2, 0⟩
      (by decide) (by decide) (by decide),
    canUpgrade_spec.2.1 "1.2.0",
    canUpgrade_spec.1 "1.0.0",
    canUpgrade_spec.2.2.2.2 "1.1.0" "devel-build" (by decide) (by decide)
      (Or.inr (by decide))⟩

/-! ## Finalizers (source lines 739-772) -/

/-- The controller's finalizer name (source line 73). -/
def hppFinalizer : String := "finalizer.delete.hostpath-provisioner"

/-- `HasFinalizer`: true if the resource carries the named finalizer. -/
def HasFinalizer (obj : HostPathProvisioner) (value : String) : Bool :=
  obj.finalizers.any (fun f => f = value)

/-- `AddFinalizer`: append the finalizer unless already present. -/
def AddFinalizer (obj : HostPathProvisioner) (name : String) : HostPathProvisioner :=
  if HasFinalizer obj name then obj
  else { obj with finalizers := obj.finalizers ++ [name] }

/-- `RemoveFinalizer`: drop every occurrence of the finalizer, keeping order. -/
def RemoveFinalizer (obj : HostPathProvisioner) (name : String) : HostPathProvisioner :=
  if ¬ HasFinalizer obj name then obj
  else { obj with finalizers := obj.finalizers.filter (fun f => ¬ f = name) }

/-! ## Condition helpers

The conditions library (`openshift/custom-resource-status`) and the `MarkCr*`
helpers live outside the provided sources; they are modelled from the spec's
condition semantics (§3, §4.2). -/

/-- `conditions.FindStatusCondition`: first condition with the given type,
or `nil`. -/
def FindStatusCondition (conds : List Condition) (condType : String) : Option Condition :=
  conds.find? (fun c => c.type = condType)

/-- Modelled from the spec: `conditions.SetStatusCondition` (external library).
Heartbeat time updates on every set; transition time updates only when
status/reason/message change; an absent type is appended. -/
def setStatusCondition (now : Nat) (ctype cstatus reason message : String) :
    List Condition → List Condition
  | [] => [⟨ctype, cstatus, reason, message, now, now⟩]
  | c :: rest =>
    if c.type = ctype then
      { c with
        status := cstatus
        reason := reason
        message := message
        lastHeartbeatTime := now
        lastTransitionTime :=
          if c.status = cstatus ∧ c.reason = reason ∧ c.message = message then
            c.lastTransitionTime
          else now } :: rest
    else c :: setStatusCondition now ctype cstatus reason message rest

/-- Set one condition on the CR's status. -/
def setCrCondition (now : Nat) (cr : HostPathProvisioner)
    (ctype cstatus reason message : String) : HostPathProvisioner :=
  { cr with status := { cr.status with
      conditions := setStatusCondition now ctype cstatus reason message cr.status.conditions } }

/-- Modelled from the spec: `MarkCrFailed` (helper outside the provided
sources) records the Degraded/Failed state: Available=False,
Progressing=False, Degraded=True with the given reason/message. -/
def MarkCrFailed (now : Nat) (cr : HostPathProvisioner) (reason message : String) :
    HostPathProvisioner :=
  setCrCondition now
    (setCrCondition now
      (setCrCondition now cr "Available" "False" reason message)
      "Progressing" "False" reason message)
    "Degraded" "True" reason message

/-- Modelled from the spec: `MarkCrFailedHealing` (helper outside the provided
sources) records a degraded-but-healing state: Available=False,
Progressing=True, Degraded=True with the given reason/message. -/
def MarkCrFailedHealing (now : Nat) (cr : HostPathProvisioner) (reason message : String) :
    HostPathProvisioner :=
  setCrCondition now
    (setCrCondition now
      (setCrCondition now cr "Available" "False" reason message)
      "Progressing" "True" reason message)
    "Degraded" "True" reason message

/-- Modelled from the spec: `MarkCrHealthyMessage` (helper outside the provided
sources) records the Available/Healthy state: Available=True with the given
reason/message, Progressing=False, Degraded=False. -/
def MarkCrHealthyMessage (now : Nat) (cr : HostPathProvisioner) (reason message : String) :
    HostPathProvisioner :=
  setCrCondition now
    (setCrCondition now
      (setCrCondition now cr "Available" "True" reason message)
      "Progressing" "False" reason message)
    "Degraded" "False" reason message

/-- `isLegacy` (source lines 517-519): legacy mode iff `Spec.PathConfig` is
set. -/
def isLegacy (cr : HostPathProvisioner) : Bool :=
  cr.spec.pathConfig.isSome

/-- Modelled from the spec: `isDeploying` (helper outside the provided
sources); per the spec, Deploying is the just-created state with no prior
observed version (`ObservedVersion == ""`). -/
def isDeploying (cr : HostPathProvisioner) : Bool :=
  cr.status.observedVersion = ""

/-! ## DaemonSet readiness and the degraded check -/

/-- `checkApplicationAvailable` (source lines 697-699). -/
def checkApplicationAvailable (daemonSet : DaemonSetStatus) : Bool :=
  daemonSet.numberReady > 0

/-- `checkDaemonSetReady` (source lines 693-695). -/
def checkDaemonSetReady (daemonSet : DaemonSetStatus) : Bool :=
  checkApplicationAvailable daemonSet
    && daemonSet.numberReady >= daemonSet.desiredNumberScheduled

/-- `checkDegraded` (source lines 663-691).  The two client `Get` calls for
the legacy and CSI daemon sets are supplied as `Except` inputs; the legacy
`Get` is only consulted in legacy mode (otherwise the zero daemon set is
used, as in the source).  Returns the `(degraded, error)` pair and the
possibly-marked CR. -/
def checkDegraded (now : Nat) (getLegacyDS getCsiDS : Except Err DaemonSetStatus)
    (cr : HostPathProvisioner) : Bool × Option Err × HostPathProvisioner :=
  match (if isLegacy cr then getLegacyDS else Except.ok DaemonSetStatus.zero) with
  | Except.error e => (true, some e, cr)
  | Except.ok daemonSet =>
    match getCsiDS with
    | Except.error e => (true, some e, cr)
    | Except.ok daemonSetCsi =>
      let degraded :=
        !((!isLegacy cr || checkDaemonSetReady daemonSet)
          && checkDaemonSetReady daemonSetCsi)
      let cr' :=
        if degraded && !isDeploying cr then
          MarkCrFailed now cr "Degraded" "CR is deployed but DaemonSets are not ready"
        else cr
      (degraded, none, cr')

/-- Modelled from the spec: `reconcileStoragePoolStatus` is not among the
provided sources; per the spec it refreshes the per-storage-pool status on the
CR and reports an error when pools are not ready.  The outcome is supplied as
an `Except` input: on success the pool-status list is written to the CR. -/
def reconcileStoragePoolStatus (poolStatus : Except Err (List String))
    (cr : HostPathProvisioner) : Option Err × HostPathProvisioner :=
  match poolStatus with
  | Except.error e => (some e, cr)
  | Except.ok ps => (none, { cr with status := { cr.status with storagePoolStatuses := ps } })

/-- `reconcileStatus` (source lines 521-535): degraded check, storage-pool
status, then advance `ObservedVersion` only when not degraded. -/
def reconcileStatus (now : Nat) (getLegacyDS getCsiDS : Except Err DaemonSetStatus)
    (poolStatus : Except Err (List String)) (cr : HostPathProvisioner)
    (versionString : String) : Result × Option Err × HostPathProvisioner :=
  match checkDegraded now getLegacyDS getCsiDS cr with
  | (_, some e, cr') => (Result.empty, some e, cr')
  | (degraded, none, cr') =>
    match reconcileStoragePoolStatus poolStatus cr' with
    | (some e, cr'') => (Result.empty, some e,
        MarkCrFailedHealing now cr'' "StoragePoolNotReady" e)
    | (none, cr'') =>
      if !degraded && cr''.status.observedVersion ≠ versionString then
        (Result.empty, none,
          { cr'' with status := { cr''.status with observedVersion := versionString } })
      else
        (Result.empty, none, cr'')

theorem setCrCondition_observedVersion (now : Nat) (cr : HostPathProvisioner)
    (t s r m : String) :
    (setCrCondition now cr t s r m).status.observedVersion = cr.status.observedVersion := rfl

theorem markCrFailed_observedVersion (now : Nat) (cr : HostPathProvisioner)
    (r m : String) :
    (MarkCrFailed now cr r m).status.observedVersion = cr.status.observedVersion := rfl

theorem markCrFailedHealing_observedVersion (now : Nat) (cr : HostPathProvisioner)
    (r m : String) :
    (MarkCrFailedHealing now cr r m).status.observedVersion = cr.status.observedVersion := rfl

theorem checkDegraded_observedVersion (now : Nat)
    (gl gc : Except Err DaemonSetStatus) (cr : HostPathProvisioner) :
    ((checkDegraded now gl gc cr).2.2).status.observedVersion
      = cr.status.observedVersion := by
  unfold checkDegraded
  split
  · rfl
  · split
    · rfl
    · dsimp only
      split
      · exact markCrFailed_observedVersion ..
      · rfl

theorem reconcileStoragePoolStatus_observedVersion
    (ps : Except Err (List String)) (cr : HostPathProvisioner) :
    ((reconcileStoragePoolStatus ps cr).2).status.observedVersion
      = cr.status.observedVersion := by
  cases ps <;> rfl

/-- Claim C4: a daemon workload is ready iff `NumberReady > 0` and
`NumberReady ≥ DesiredNumberScheduled`; in particular
`NumberReady = 0, DesiredNumberScheduled = 0` is not ready. -/
theorem checkDaemonSetReady_spec :
    (∀ ds : DaemonSetStatus,
      checkDaemonSetReady ds = true
        ↔ (0 < ds.numberReady ∧ ds.desiredNumberScheduled ≤ ds.numberReady)) ∧
    checkDaemonSetReady ⟨0, 0⟩ = false := by
  constructor
  · intro ds
    simp [checkDaemonSetReady, checkApplicationAvailable]
  · decide

/-- Claim C5: while the CR is Deploying the degraded check never marks it
Degraded/Failed (the CR is returned unchanged, even when a required daemon
workload is unready); the CR is changed only when the workload check reports
degraded and the CR is not Deploying. -/
theorem checkDegraded_deploying_spec :
    ∀ (now : Nat) (gl gc : Except Err DaemonSetStatus) (cr : HostPathProvisioner),
      (isDeploying cr = true → (checkDegraded now gl gc cr).2.2 = cr) ∧
      ((checkDegraded now gl gc cr).2.2 ≠ cr →
        (checkDegraded now gl gc cr).1 = true ∧ isDeploying cr = false) := by
  intro now gl gc cr
  constructor
  · intro hdep
    unfold checkDegraded
    split
    · rfl
    · split
      · rfl
      · dsimp only
        simp [hdep]
  · unfold checkDegraded
    split
    · simp
    · split
      · simp
      · dsimp only
        split
        · rename_i hcond
          intro _
          simp only [Bool.and_eq_true, Bool.not_eq_true'] at hcond
          refine ⟨?_, hcond.2⟩
          simp [hcond.1]
        · intro h
          exact absurd rfl h

/-- Closed instance of `checkDegraded_deploying_spec`: a Deploying CR with an
unready CSI workload is not marked Degraded. -/
theorem checkDegraded_deploying_spec_witness :
    isDeploying (⟨⟨none, []⟩, ⟨[], "", "", "", []⟩, [], none⟩ : HostPathProvisioner) = true ∧
    (checkDegraded 0 (Except.ok DaemonSetStatus.zero) (Except.ok DaemonSetStatus.zero)
        (⟨⟨none, []⟩, ⟨[], "", "", "", []⟩, [], none⟩ : HostPathProvisioner)).2.2
      = (⟨⟨none, []⟩, ⟨[], "", "", "", []⟩, [], none⟩ : HostPathProvisioner) := by
  refine ⟨by decide, ?_⟩
  exact (checkDegraded_deploying_spec 0 (Except.ok DaemonSetStatus.zero)
    (Except.ok DaemonSetStatus.zero) _).1 (by decide)

/-- Claim C6: in `reconcileStatus`, when the degraded check reports degraded,
`ObservedVersion` on the CR after the run equals its value before the run. -/
theorem reconcileStatus_observedVersion_spec :
    ∀ (now : Nat) (gl gc : Except Err DaemonSetStatus)
      (ps : Except Err (List String)) (cr : HostPathProvisioner) (v : String),
      (checkDegraded now gl gc cr).1 = true →
      (reconcileStatus now gl gc ps cr v).2.2.status.observedVersion
        = cr.status.observedVersion := by
  intro now gl gc ps cr v hdeg
  unfold reconcileStatus
  split
  · rename_i e cr' heq
    have : cr' = (checkDegraded now gl gc cr).2.2 := by rw [heq]
    rw [this, checkDegraded_observedVersion]
  · rename_i degraded cr' heq
    have hcr' : cr' = (checkDegraded now gl gc cr).2.2 := by rw [heq]
    have hdeg' : degraded = true := by
      have : (checkDegraded now gl gc cr).1 = degraded := by rw [heq]
      rw [← this, hdeg]
    split
    · rename_i e cr'' heq2
      have hcr'' : cr'' = (reconcileStoragePoolStatus ps cr').2 := by rw [heq2]
      rw [markCrFailedHealing_observedVersion, hcr'',
        reconcileStoragePoolStatus_observedVersion, hcr',
        checkDegraded_observedVersion]
    · rename_i cr'' heq2
      have hcr'' : cr'' = (reconcileStoragePoolStatus ps cr').2 := by rw [heq2]
      rw [if_neg]
      · rw [hcr'', reconcileStoragePoolStatus_observedVersion, hcr',
          checkDegraded_observedVersion]
      · rw [hdeg']
        simp

/-- Closed instance of `reconcileStatus_observedVersion_spec`: a degraded CR
keeps its observed version. -/
theorem reconcileStatus_observedVersion_spec_witness :
    (checkDegraded 0 (Except.ok DaemonSetStatus.zero) (Except.ok DaemonSetStatus.zero)
      (⟨⟨none, []⟩, ⟨[], "", "", "0.9", []⟩, [], none⟩ : HostPathProvisioner)).1 = true ∧
    (reconcileStatus 0 (Except.ok DaemonSetStatus.zero) (Except.ok DaemonSetStatus.zero)
        (Except.ok [])
        (⟨⟨none, []⟩, ⟨[], "", "", "0.9", []⟩, [], none⟩ : HostPathProvisioner)
        "1.0.0").2.2.status.observedVersion = "0.9" := by
  refine ⟨by decide, ?_⟩
  have := reconcileStatus_observedVersion_spec 0 (Except.ok DaemonSetStatus.zero)
    (Except.ok DaemonSetStatus.zero) (Except.ok [])
    (⟨⟨none, []⟩, ⟨[], "", "", "0.9", []⟩, [], none⟩ : HostPathProvisioner)
    "1.0.0" (by decide)
  simpa using this

/-! ## Heartbeat-timestamp normalization (source lines 476-484, 508-515) -/

/-- The per-condition loop of `ignoreHeartBeatTimestamp`: for every condition
of the before-snapshot, look its type up in the current CR's conditions and —
when status/reason/message are otherwise unchanged — copy the current
heartbeat forward.  The Go code dereferences the lookup result without a nil
guard; a failed lookup is a panic, modelled as `none`. -/
def ignoreHeartBeatConditions : List Condition → List Condition → Option (List Condition)
  | [], _ => some []
  | c :: rest, crConds =>
    match FindStatusCondition crConds c.type with
    | none => none
    | some crCond =>
      let c' :=
        if crCond.message = c.message ∧ crCond.reason = c.reason ∧ crCond.status = c.status
        then { c with lastHeartbeatTime := crCond.lastHeartbeatTime }
        else c
      (ignoreHeartBeatConditions rest crConds).map (fun cs => c' :: cs)

/-- `ignoreHeartBeatTimestamp` (source lines 508-515): normalize the
before-snapshot `currentCopy` against the current `cr`; `none` models the
panic on a condition type absent from `cr`. -/
def ignoreHeartBeatTimestamp (currentCopy cr : HostPathProvisioner) :
    Option HostPathProvisioner :=
  (ignoreHeartBeatConditions currentCopy.status.conditions cr.status.conditions).map
    (fun cs => { currentCopy with status := { currentCopy.status with conditions := cs } })

/-- The update guard at the end of `Reconcile` (source lines 476-484): after
heartbeat normalization, a CR update is written iff the normalized snapshot
still differs from the current CR (`reflect.DeepEqual`). -/
def statusUpdateNeeded (currentCopy cr : HostPathProvisioner) : Option Bool :=
  (ignoreHeartBeatTimestamp currentCopy cr).map (fun updated => decide (updated ≠ cr))

/-- Two conditions that agree on everything except possibly the heartbeat
time. -/
def sameExceptHeartbeat (cb ca : Condition) : Prop :=
  cb.type = ca.type ∧ cb.status = ca.status ∧ cb.reason = ca.reason ∧
    cb.message = ca.message ∧ cb.lastTransitionTime = ca.lastTransitionTime

/-- Two CRs that differ at most in the heartbeat times of pointwise-matching
conditions. -/
def OnlyHeartbeatDiff (b a : HostPathProvisioner) : Prop :=
  b.spec = a.spec ∧ b.finalizers = a.finalizers ∧
    b.deletionTimestamp = a.deletionTimestamp ∧
    b.status.operatorVersion = a.status.operatorVersion ∧
    b.status.targetVersion = a.status.targetVersion ∧
    b.status.observedVersion = a.status.observedVersion ∧
    b.status.storagePoolStatuses = a.status.storagePoolStatuses ∧
    List.Forall₂ sameExceptHeartbeat b.status.conditions a.status.conditions

theorem findStatusCondition_self (as : List Condition)
    (hnd : (as.map Condition.type).Nodup) :
    ∀ a ∈ as, FindStatusCondition as a.type = some a := by
  induction as with
  | nil => intro a ha; cases ha
  | cons x rest ih =>
    intro a ha
    rcases List.mem_cons.mp ha with rfl | ha'
    · simp [FindStatusCondition, List.find?]
    · have hx : x.type ≠ a.type := by
        intro h
        have : a.type ∈ rest.map Condition.type := List.mem_map_of_mem _ ha'
        rw [← h] at this
        exact (List.nodup_cons.mp hnd).1 this
      have hrec := ih (List.nodup_cons.mp hnd).2 a ha'
      have hd : decide (x.type = a.type) = false := by simpa using hx
      simp only [FindStatusCondition, List.find?] at hrec ⊢
      rw [hd]
      exact hrec

theorem ignoreHeartBeatConditions_of_rel (aAll : List Condition) :
    ∀ {bs as : List Condition}, List.Forall₂ sameExceptHeartbeat bs as →
      (∀ a ∈ as, FindStatusCondition aAll a.type = some a) →
      ignoreHeartBeatConditions bs aAll = some as := by
  intro bs as h
  induction h with
  | nil => intro _; rfl
  | cons hab h ih =>
    rename_i bc ac l₁ l₂
    intro hfind
    obtain ⟨ht, hs, hr, hm, htt⟩ := hab
    have hf : FindStatusCondition aAll bc.type = some ac := by
      rw [ht]; exact hfind ac (List.mem_cons_self ac l₂)
    simp only [ignoreHeartBeatConditions]
    rw [hf]
    dsimp only
    rw [if_pos ⟨hm.symm, hr.symm, hs.symm⟩]
    have hc' : ({ bc with lastHeartbeatTime := ac.lastHeartbeatTime } : Condition) = ac := by
      cases bc; cases ac
      simp_all
    rw [hc', ih (fun a ha => hfind a (List.mem_cons_of_mem _ ha))]
    rfl

/-- Claim C10: `ignoreHeartBeatTimestamp` is well-defined exactly when every
condition type of the before-snapshot also occurs in the current CR's
conditions; otherwise the unguarded lookup yields nil and the function
faults (modelled as `none`). -/
theorem ignoreHeartBeatTimestamp_total_iff :
    ∀ b a : HostPathProvisioner,
      (ignoreHeartBeatTimestamp b a).isSome = true ↔
        ∀ c ∈ b.status.conditions,
          (FindStatusCondition a.status.conditions c.type).isSome = true := by
  have key : ∀ (bs crConds : List Condition),
      (ignoreHeartBeatConditions bs crConds).isSome = true ↔
        ∀ c ∈ bs, (FindStatusCondition crConds c.type).isSome = true := by
    intro bs crConds
    induction bs with
    | nil => simp [ignoreHeartBeatConditions]
    | cons c rest ih =>
      simp only [ignoreHeartBeatConditions]
      cases h : FindStatusCondition crConds c.type with
      | none => simp [h]
      | some crCond => simp [h, ih]
  intro b a
  unfold ignoreHeartBeatTimestamp
  rw [← key b.status.conditions a.status.conditions]
  cases ignoreHeartBeatConditions b.status.conditions a.status.conditions <;> simp

/-- Claim C7: when the current CR differs from the before-snapshot only in
heartbeat times of conditions whose status/reason/message are unchanged
(condition types being unique, as the conditions library maintains), the
update guard decides that no CR update is written. -/
theorem statusUpdateNeeded_heartbeat_spec :
    ∀ b a : HostPathProvisioner, OnlyHeartbeatDiff b a →
      (a.status.conditions.map Condition.type).Nodup →
      statusUpdateNeeded b a = some false := by
  intro b a hdiff hnd
  obtain ⟨hspec, hfin, hdel, hop, htv, hov, hpool, hconds⟩ := hdiff
  have hc : ignoreHeartBeatConditions b.status.conditions a.status.conditions
      = some a.status.conditions :=
    ignoreHeartBeatConditions_of_rel _ hconds (findStatusCondition_self _ hnd)
  unfold statusUpdateNeeded ignoreHeartBeatTimestamp
  rw [hc]
  have hbeq : ({ b with status :=
      { b.status with conditions := a.status.conditions } } : HostPathProvisioner) = a := by
    cases b with
    | mk bspec bstatus bfin bdel =>
      cases a with
      | mk aspec astatus afin adel =>
        cases bstatus; cases astatus
        simp_all
  simp only [Option.map_some']
  rw [hbeq]
  simp

/-- Closed instance of `statusUpdateNeeded_heartbeat_spec`: a heartbeat-only
change does not trigger a status update write. -/
theorem statusUpdateNeeded_heartbeat_spec_witness :
    statusUpdateNeeded
      (⟨⟨none, []⟩, ⟨[⟨"Available", "True", "Complete", "ok", 5, 10⟩], "1", "1", "1", []⟩,
        [], none⟩ : HostPathProvisioner)
      (⟨⟨none, []⟩, ⟨[⟨"Available", "True", "Complete", "ok", 5, 20⟩], "1", "1", "1", []⟩,
        [], none⟩ : HostPathProvisioner) = some false := by
  apply statusUpdateNeeded_heartbeat_spec
  · exact ⟨rfl, rfl, rfl, rfl, rfl, rfl, rfl,
      List.Forall₂.cons ⟨rfl, rfl, rfl, rfl, rfl⟩ List.Forall₂.nil⟩
  · simp

/-! ## Deletion / finalizer protocol (source lines 387-428, 488-506, 537-561) -/

/-- Modelled from the spec: the resource-name constants are declared outside
the provided sources; their values are opaque to the embedded logic. -/
def MultiPurposeHostPathProvisionerName : String := "hostpath-provisioner"

/-- Modelled from the spec: see `MultiPurposeHostPathProvisionerName`. -/
def ProvisionerServiceAccountName : String := "hostpath-provisioner-admin"

/-- Modelled from the spec: see `MultiPurposeHostPathProvisionerName`. -/
def ProvisionerServiceAccountNameCsi : String := "hostpath-provisioner-admin-csi"

/-- `reconcileCleanup` (source lines 488-506).  The storage-pool deployment
listing, the cleanup-job poll and the job removal are supplied as inputs. -/
def reconcileCleanup (spDeployments : Except Err Nat)
    (hasCleanUpFinished : Except Err Bool) (removeCleanUpJobs : Option Err)
    (deploymentCount : Int) : Result × Option Err :=
  match spDeployments with
  | Except.error e => (Result.empty, some e)
  | Except.ok n =>
    match hasCleanUpFinished with
    | Except.error e => (Result.empty, some e)
    | Except.ok cleanupFinished =>
      if (n : Int) = deploymentCount ∧ cleanupFinished = true then
        match removeCleanUpJobs with
        | some e => (Result.empty, some e)
        | none => (Result.empty, none)
      else
        (⟨timeSecond⟩, none)

/-- The outcomes of every cluster call made on the deletion branch of
`Reconcile`, in the order the branch performs them. -/
structure DeletionEnv where
  cleanDeployments : Option Err
  spDeployments : Except Err Nat
  hasCleanUpFinished : Except Err Bool
  removeCleanUpJobs : Option Err
  deleteSCC : String → Option Err
  deletePrometheusResources : Option Err
  deleteClusterRoleBindingObject : String → Option Err
  deleteClusterRoleObject : String → Option Err
  deleteRoleBindingObject : String → Option Err
  deleteRoleObject : String → Option Err
  deleteCSIDriver : Option Err
  updateCr : Option Err

/-- The three service-account names `deleteAllRbac` iterates over. -/
def rbacNames : List String :=
  [ProvisionerServiceAccountName, ProvisionerServiceAccountNameCsi,
    MultiPurposeHostPathProvisionerName]

/-- `deleteAllRbac` (source lines 537-561): for each name delete the cluster
role binding, cluster role, role binding and role, stopping at the first
error. -/
def deleteAllRbac (env : DeletionEnv) : List String → Result × Option Err
  | [] => (Result.empty, none)
  | name :: restNames =>
    match env.deleteClusterRoleBindingObject name with
    | some e => (Result.empty, some e)
    | none =>
      match env.deleteClusterRoleObject name with
      | some e => (Result.empty, some e)
      | none =>
        match env.deleteRoleBindingObject name with
        | some e => (Result.empty, some e)
        | none =>
          match env.deleteRoleObject name with
          | some e => (Result.empty, some e)
          | none => deleteAllRbac env restNames

/-- The deletion branch of `Reconcile` (source lines 387-428), entered when
`DeletionTimestamp` is set: clean deployments, wait for cleanup convergence
(requeue after one second until the per-pool deployment count reaches 0 and
cleanup jobs finished), then delete SCCs, Prometheus infra, RBAC and the
CSIDriver, and only then remove the finalizer and update the CR. -/
def deletionBranch (env : DeletionEnv) (cr : HostPathProvisioner) :
    Result × Option Err × HostPathProvisioner :=
  match env.cleanDeployments with
  | some e => (Result.empty, some e, cr)
  | none =>
    let rc := reconcileCleanup env.spDeployments env.hasCleanUpFinished
      env.removeCleanUpJobs 0
    if rc.2.isSome = true ∨ rc.1.requeueAfter = timeSecond then (rc.1, rc.2, cr)
    else
      match env.deleteSCC MultiPurposeHostPathProvisionerName with
      | some e => (Result.empty, some e, cr)
      | none =>
        match env.deleteSCC (MultiPurposeHostPathProvisionerName ++ "-csi") with
        | some e => (Result.empty, some e, cr)
        | none =>
          match env.deletePrometheusResources with
          | some e => (Result.empty, some e, cr)
          | none =>
            match deleteAllRbac env rbacNames with
            | (res, some e) => (res, some e, cr)
            | (_, none) =>
              match env.deleteCSIDriver with
              | some e => (Result.empty, some e, cr)
              | none =>
                let cr' := RemoveFinalizer cr hppFinalizer
                match env.updateCr with
                | some e => (Result.empty, some e, cr')
                | none => (Result.empty, none, cr')

/-- The cleanup wait has converged for full teardown: zero active per-pool
deployments and no cleanup job still running. -/
def cleanupConverged (env : DeletionEnv) : Prop :=
  env.spDeployments = Except.ok 0 ∧ env.hasCleanUpFinished = Except.ok true

/-- Every delete step of the deletion branch succeeded. -/
def deletesSucceeded (env : DeletionEnv) : Prop :=
  env.cleanDeployments = none ∧ env.removeCleanUpJobs = none ∧
    env.deleteSCC MultiPurposeHostPathProvisionerName = none ∧
    env.deleteSCC (MultiPurposeHostPathProvisionerName ++ "-csi") = none ∧
    env.deletePrometheusResources = none ∧
    (deleteAllRbac env rbacNames).2 = none ∧
    env.deleteCSIDriver = none

/-- Claim C2: on the deletion branch, the finalizer is removed and the CR
updated only after every prior delete step succeeded and the cleanup wait
converged.  If the active per-pool deployment count differs from 0 or cleanup
jobs are still running, the run returns requeue-after one second without
touching the CR; if any delete step errors, the run returns that error with
the CR (and hence its finalizer) unchanged. -/
theorem deletionBranch_spec :
    ∀ (env : DeletionEnv) (cr : HostPathProvisioner),
      (∀ e, env.cleanDeployments = some e →
        deletionBranch env cr = (Result.empty, some e, cr)) ∧
      (∀ n fin, env.cleanDeployments = none →
        env.spDeployments = Except.ok n →
        env.hasCleanUpFinished = Except.ok fin →
        ¬(n = 0 ∧ fin = true) →
        deletionBranch env cr = (⟨timeSecond⟩, none, cr)) ∧
      (∀ e, env.cleanDeployments = none →
        env.spDeployments = Except.error e →
        deletionBranch env cr = (Result.empty, some e, cr)) ∧
      (∀ n e, env.cleanDeployments = none →
        env.spDeployments = Except.ok n →
        env.hasCleanUpFinished = Except.error e →
        deletionBranch env cr = (Result.empty, some e, cr)) ∧
      (∀ e, env.cleanDeployments = none → cleanupConverged env →
        env.removeCleanUpJobs = some e →
        deletionBranch env cr = (Result.empty, some e, cr)) ∧
      (∀ e, env.cleanDeployments = none → cleanupConverged env →
        env.removeCleanUpJobs = none →
        env.deleteSCC MultiPurposeHostPathProvisionerName = some e →
        deletionBranch env cr = (Result.empty, some e, cr)) ∧
      (∀ e, env.cleanDeployments = none → cleanupConverged env →
        env.removeCleanUpJobs = none →
        env.deleteSCC MultiPurposeHostPathProvisionerName = none →
        env.deleteSCC (MultiPurposeHostPathProvisionerName ++ "-csi") = some e →
        deletionBranch env cr = (Result.empty, some e, cr)) ∧
      (∀ e, env.cleanDeployments = none → cleanupConverged env →
        env.removeCleanUpJobs = none →
        env.deleteSCC MultiPurposeHostPathProvisionerName = none →
        env.deleteSCC (MultiPurposeHostPathProvisionerName ++ "-csi") = none →
        env.deletePrometheusResources = some e →
        deletionBranch env cr = (Result.empty, some e, cr)) ∧
      (∀ r e, env.cleanDeployments = none → cleanupConverged env →
        env.removeCleanUpJobs = none →
        env.deleteSCC MultiPurposeHostPathProvisionerName = none →
        env.deleteSCC (MultiPurposeHostPathProvisionerName ++ "-csi") = none →
        env.deletePrometheusResources = none →
        deleteAllRbac env rbacNames = (r, some e) →
        deletionBranch env cr = (r, some e, cr)) ∧
      (∀ e, env.cleanDeployments = none → cleanupConverged env →
        env.removeCleanUpJobs = none →
        env.deleteSCC MultiPurposeHostPathProvisionerName = none →
        env.deleteSCC (MultiPurposeHostPathProvisionerName ++ "-csi") = none →
        env.deletePrometheusResources = none →
        (deleteAllRbac env rbacNames).2 = none →
        env.deleteCSIDriver = some e →
        deletionBranch env cr = (Result.empty, some e, cr)) ∧
      ((deletionBranch env cr).2.2 ≠ cr →
        (deletionBranch env cr).2.2 = RemoveFinalizer cr hppFinalizer ∧
          cleanupConverged env ∧ deletesSucceeded env) := by
  intro env cr
  refine ⟨?_, ?_, ?_, ?_, ?_, ?_, ?_, ?_, ?_, ?_, ?_⟩
  · intro e h
    simp [deletionBranch, h]
  · intro n fin h1 h2 h3 h4
    simp [deletionBranch, reconcileCleanup, h1, h2, h3, h4, timeSecond, Result.empty]
  · intro e h1 h2
    simp [deletionBranch, reconcileCleanup, h1, h2, timeSecond, Result.empty]
  · intro n e h1 h2 h3
    simp [deletionBranch, reconcileCleanup, h1, h2, h3, timeSecond, Result.empty]
  · intro e h1 hconv h2
    simp [deletionBranch, reconcileCleanup, h1, hconv.1, hconv.2, h2, timeSecond, Result.empty]
  · intro e h1 hconv h2 h3
    simp [deletionBranch, reconcileCleanup, h1, hconv.1, hconv.2, h2, h3, timeSecond, Result.empty]
  · intro e h1 hconv h2 h3 h4
    simp [deletionBranch, reconcileCleanup, h1, hconv.1, hconv.2, h2, h3, h4, timeSecond, Result.empty]
  · intro e h1 hconv h2 h3 h4 h5
    simp [deletionBranch, reconcileCleanup, h1, hconv.1, hconv.2, h2, h3, h4, h5, timeSecond, Result.empty]
  · intro r e h1 hconv h2 h3 h4 h5 h6
    simp [deletionBranch, reconcileCleanup, h1, hconv.1, hconv.2, h2, h3, h4, h5, h6,
      timeSecond, Result.empty]
  · intro e h1 hconv h2 h3 h4 h5 h6 h7
    rcases hrb : deleteAllRbac env rbacNames with ⟨r, o⟩
    rw [hrb] at h6
    simp only at h6
    subst h6
    simp [deletionBranch, reconcileCleanup, h1, hconv.1, hconv.2, h2, h3, h4, h5, hrb, h7,
      timeSecond, Result.empty]
  · intro h
    cases hclean : env.cleanDeployments with
    | some e => simp [deletionBranch, hclean] at h
    | none =>
      cases hsp : env.spDeployments with
      | error e => simp [deletionBranch, reconcileCleanup, hclean, hsp, timeSecond, Result.empty] at h
      | ok n =>
        cases hfin : env.hasCleanUpFinished with
        | error e => simp [deletionBranch, reconcileCleanup, hclean, hsp, hfin, timeSecond, Result.empty] at h
        | ok fin =>
          by_cases hconv : (n = 0 ∧ fin = true)
          · have hn : n = 0 := hconv.1
            cases hrm : env.removeCleanUpJobs with
            | some e =>
              simp [deletionBranch, reconcileCleanup, hclean, hsp, hfin, hconv, hrm,
                timeSecond, Result.empty] at h
            | none =>
              cases hscc1 : env.deleteSCC MultiPurposeHostPathProvisionerName with
              | some e =>
                simp [deletionBranch, reconcileCleanup, hclean, hsp, hfin, hconv, hrm,
                  hscc1, timeSecond, Result.empty] at h
              | none =>
                cases hscc2 : env.deleteSCC (MultiPurposeHostPathProvisionerName ++ "-csi") with
                | some e =>
                  simp [deletionBranch, reconcileCleanup, hclean, hsp, hfin, hconv, hrm,
                    hscc1, hscc2, timeSecond, Result.empty] at h
                | none =>
                  cases hprom : env.deletePrometheusResources with
                  | some e =>
                    simp [deletionBranch, reconcileCleanup, hclean, hsp, hfin, hconv, hrm,
                      hscc1, hscc2, hprom, timeSecond, Result.empty] at h
                  | none =>
                    rcases hrb : deleteAllRbac env rbacNames with ⟨r, o⟩
                    cases o with
                    | some e =>
                      simp [deletionBranch, reconcileCleanup, hclean, hsp, hfin, hconv, hrm,
                        hscc1, hscc2, hprom, hrb, timeSecond, Result.empty] at h
                    | none =>
                      cases hcsi : env.deleteCSIDriver with
                      | some e =>
                        simp [deletionBranch, reconcileCleanup, hclean, hsp, hfin, hconv, hrm,
                          hscc1, hscc2, hprom, hrb, hcsi, timeSecond, Result.empty] at h
                      | none =>
                        refine ⟨?_, ⟨by rw [hsp, hn], by rw [hfin, hconv.2]⟩,
                          hclean, hrm, hscc1, hscc2, hprom, by rw [hrb], hcsi⟩
                        cases hupd : env.updateCr with
                        | some e =>
                          simp [deletionBranch, reconcileCleanup, hclean, hsp, hfin, hconv,
                            hrm, hscc1, hscc2, hprom, hrb, hcsi, hupd, timeSecond, Result.empty]
                        | none =>
                          simp [deletionBranch, reconcileCleanup, hclean, hsp, hfin, hconv,
                            hrm, hscc1, hscc2, hprom, hrb, hcsi, hupd, timeSecond, Result.empty]
          · simp [deletionBranch, reconcileCleanup, hclean, hsp, hfin, hconv, timeSecond, Result.empty] at h

/-- Closed instances of `deletionBranch_spec`: an unconverged cleanup requeues
after one second without touching the CR, and a failing SCC delete surfaces
its error with the finalizer intact. -/
theorem deletionBranch_spec_witness :
    deletionBranch
      ⟨none, Except.ok 2, Except.ok false, none, fun _ => none, none, fun _ => none,
        fun _ => none, fun _ => none, fun _ => none, none, none⟩
      (⟨⟨none, []⟩, ⟨[], "", "", "", []⟩, ["finalizer.delete.hostpath-provisioner"], some 7⟩ :
        HostPathProvisioner)
      = (⟨timeSecond⟩, none,
        (⟨⟨none, []⟩, ⟨[], "", "", "", []⟩, ["finalizer.delete.hostpath-provisioner"], some 7⟩ :
          HostPathProvisioner)) ∧
    deletionBranch
      ⟨none, Except.ok 0, Except.ok true, none, fun _ => some "scc delete failed", none,
        fun _ => none, fun _ => none, fun _ => none, fun _ => none, none, none⟩
      (⟨⟨none, []⟩, ⟨[], "", "", "", []⟩, ["finalizer.delete.hostpath-provisioner"], some 7⟩ :
        HostPathProvisioner)
      = (Result.empty, some "scc delete failed",
        (⟨⟨none, []⟩, ⟨[], "", "", "", []⟩, ["finalizer.delete.hostpath-provisioner"], some 7⟩ :
          HostPathProvisioner)) := by
  constructor
  · exact (deletionBranch_spec _ _).2.1 2 false rfl rfl rfl (by decide)
  · exact (deletionBranch_spec _ _).2.2.2.2.2.1 "scc delete failed" rfl ⟨rfl, rfl⟩ rfl rfl

/-! ## Singleton check at the top of `Reconcile` (source lines 341-351) -/

/-- The head of `Reconcile`: list all HPP instances and abort with an error —
before any other step runs — when more than one exists.  Everything after the
check (source lines 353 onward) is abstracted as `rest`, which also reports
the object mutations it performs; the error paths of the check perform
none. -/
def Reconcile (hppList : Except Err (List HostPathProvisioner))
    (rest : List HostPathProvisioner → Result × Option Err × List String) :
    Result × Option Err × List String :=
  match hppList with
  | Except.error e => (Result.empty, some e, [])
  | Except.ok items =>
    if items.length > 1 then
      (Result.empty,
        some ("there should be a single hostpath provisioner, "
          ++ toString items.length ++ " items found"), [])
    else rest items

/-- Claim C3: whenever listing the CR kind returns two or more instances,
`Reconcile` returns a non-nil error with the empty (no-requeue) result and
performs no object mutation, regardless of what the remainder of the loop
would do. -/
theorem reconcile_singleton_spec :
    ∀ (items : List HostPathProvisioner)
      (rest : List HostPathProvisioner → Result × Option Err × List String),
      2 ≤ items.length →
      Reconcile (Except.ok items) rest
        = (Result.empty,
            some ("there should be a single hostpath provisioner, "
              ++ toString items.length ++ " items found"), []) := by
  intro items rest h
  have hlen : items.length > 1 := by omega
  simp [Reconcile, hlen]

/-- Closed instance of `reconcile_singleton_spec` on a two-instance list and a
remainder that would have mutated objects. -/
theorem reconcile_singleton_spec_witness :
    ∃ e, Reconcile
      (Except.ok [(default : HostPathProvisioner), (default : HostPathProvisioner)])
      (fun _ => (⟨3⟩, none, ["update cr"]))
      = (Result.empty, some e, []) :=
  ⟨_, reconcile_singleton_spec [default, default] (fun _ => (⟨3⟩, none, ["update cr"]))
    (by decide)⟩

/-! ## Desired-state reconciliation (source lines 589-661) -/

/-- The ten owned-resource reconciliation steps of `reconcileUpdate`, in
source order. -/
inductive UpdStep where
  | daemonSet
  | storagePools
  | serviceAccount
  | clusterRole
  | clusterRoleBinding
  | role
  | roleBinding
  | csiDriver
  | securityContextConstraints
  | prometheusInfra
  deriving DecidableEq, Repr

/-- The fixed order in which `reconcileUpdate` applies the owned-resource
kinds. -/
def fullUpdOrder : List UpdStep :=
  [UpdStep.daemonSet, UpdStep.storagePools, UpdStep.serviceAccount,
    UpdStep.clusterRole, UpdStep.clusterRoleBinding, UpdStep.role,
    UpdStep.roleBinding, UpdStep.csiDriver, UpdStep.securityContextConstraints,
    UpdStep.prometheusInfra]

/-- The outcomes of the per-kind sub-reconciles and the subsequent cluster
reads that `reconcileUpdate` performs. -/
structure UpdEnv where
  daemonSet : Result × Option Err
  storagePools : Result × Option Err
  serviceAccount : Result × Option Err
  clusterRole : Result × Option Err
  clusterRoleBinding : Result × Option Err
  role : Result × Option Err
  roleBinding : Result × Option Err
  csiDriver : Result × Option Err
  securityContextConstraints : Result × Option Err
  prometheusInfra : Result × Option Err
  getLegacyDS : Except Err DaemonSetStatus
  getCsiDS : Except Err DaemonSetStatus
  spDeployments : Except Err Nat
  hasCleanUpFinished : Except Err Bool
  removeCleanUpJobs : Option Err

/-- `reconcileUpdate` (source lines 589-661): apply each owned-resource kind
in the fixed order, short-circuiting on the first error; then read the
daemon sets (the legacy one only in legacy mode), mark the CR healthy when
the required daemon sets are ready, and run the cleanup reconciliation with
the CSI daemon set's desired count as target.  The first output component is
the list of steps that were attempted, in order. -/
def reconcileUpdate (now : Nat) (env : UpdEnv) (cr : HostPathProvisioner) :
    List UpdStep × (Result × Option Err) × HostPathProvisioner :=
  match env.daemonSet with
  | (res, some e) => ([UpdStep.daemonSet], (res, some e), cr)
  | (_, none) =>
  match env.storagePools with
  | (res, some e) => (fullUpdOrder.take 2, (res, some e), cr)
  | (_, none) =>
  match env.serviceAccount with
  | (res, some e) => (fullUpdOrder.take 3, (res, some e), cr)
  | (_, none) =>
  match env.clusterRole with
  | (res, some e) => (fullUpdOrder.take 4, (res, some e), cr)
  | (_, none) =>
  match env.clusterRoleBinding with
  | (res, some e) => (fullUpdOrder.take 5, (res, some e), cr)
  | (_, none) =>
  match env.role with
  | (res, some e) => (fullUpdOrder.take 6, (res, some e), cr)
  | (_, none) =>
  match env.roleBinding with
  | (res, some e) => (fullUpdOrder.take 7, (res, some e), cr)
  | (_, none) =>
  match env.csiDriver with
  | (res, some e) => (fullUpdOrder.take 8, (res, some e), cr)
  | (_, none) =>
  match env.securityContextConstraints with
  | (res, some e) => (fullUpdOrder.take 9, (res, some e), cr)
  | (_, none) =>
  match env.prometheusInfra with
  | (res, some e) => (fullUpdOrder, (res, some e), cr)
  | (res10, none) =>
  match (if isLegacy cr then env.getLegacyDS else Except.ok DaemonSetStatus.zero) with
  | Except.error e => (fullUpdOrder, (Result.empty, some e), cr)
  | Except.ok daemonSet =>
  match env.getCsiDS with
  | Except.error e => (fullUpdOrder, (Result.empty, some e), cr)
  | Except.ok daemonSetCsi =>
    let cr' :=
      if (!isLegacy cr || checkDaemonSetReady daemonSet)
          && checkDaemonSetReady daemonSetCsi then
        MarkCrHealthyMessage now cr "Complete" "Application Available"
      else cr
    let rc := reconcileCleanup env.spDeployments env.hasCleanUpFinished
      env.removeCleanUpJobs daemonSetCsi.desiredNumberScheduled
    if rc.2.isSome = true ∨ rc.1.requeueAfter = timeSecond then
      (fullUpdOrder, rc, cr')
    else
      (fullUpdOrder, (res10, none), cr')

/-- Claim C8: `reconcileUpdate` applies the owned-resource kinds in exactly
the fixed order daemon workloads, storage pools, service accounts, cluster
role, cluster role binding, role, role binding, CSIDriver, SCC, monitoring
infra, and short-circuits — returning the failing step's error, attempting no
later step and leaving the CR untouched — as soon as any step fails; when no
step fails, all ten are applied in that order. -/
theorem reconcileUpdate_order_spec :
    ∀ (now : Nat) (env : UpdEnv) (cr : HostPathProvisioner),
      (∀ r e, env.daemonSet = (r, some e) →
        reconcileUpdate now env cr = ([UpdStep.daemonSet], (r, some e), cr)) ∧
      (∀ r1 r e, env.daemonSet = (r1, none) →
        env.storagePools = (r, some e) →
        reconcileUpdate now env cr = (fullUpdOrder.take 2, (r, some e), cr)) ∧
      (∀ r1 r2 r e, env.daemonSet = (r1, none) →
        env.storagePools = (r2, none) →
        env.serviceAccount = (r, some e) →
        reconcileUpdate now env cr = (fullUpdOrder.take 3, (r, some e), cr)) ∧
      (∀ r1 r2 r3 r e, env.daemonSet = (r1, none) →
        env.storagePools = (r2, none) →
        env.serviceAccount = (r3, none) →
        env.clusterRole = (r, some e) →
        reconcileUpdate now env cr = (fullUpdOrder.take 4, (r, some e), cr)) ∧
      (∀ r1 r2 r3 r4 r e, env.daemonSet = (r1, none) →
        env.storagePools = (r2, none) →
        env.serviceAccount = (r3, none) →
        env.clusterRole = (r4, none) →
        env.clusterRoleBinding = (r, some e) →
        reconcileUpdate now env cr = (fullUpdOrder.take 5, (r, some e), cr)) ∧
      (∀ r1 r2 r3 r4 r5 r e, env.daemonSet = (r1, none) →
        env.storagePools = (r2, none) →
        env.serviceAccount = (r3, none) →
        env.clusterRole = (r4, none) →
        env.clusterRoleBinding = (r5, none) →
        env.role = (r, some e) →
        reconcileUpdate now env cr = (fullUpdOrder.take 6, (r, some e), cr)) ∧
      (∀ r1 r2 r3 r4 r5 r6 r e, env.daemonSet = (r1, none) →
        env.storagePools = (r2, none) →
        env.serviceAccount = (r3, none) →
        env.clusterRole = (r4, none) →
        env.clusterRoleBinding = (r5, none) →
        env.role = (r6, none) →
        env.roleBinding = (r, some e) →
        reconcileUpdate now env cr = (fullUpdOrder.take 7, (r, some e), cr)) ∧
      (∀ r1 r2 r3 r4 r5 r6 r7 r e, env.daemonSet = (r1, none) →
        env.storagePools = (r2, none) →
        env.serviceAccount = (r3, none) →
        env.clusterRole = (r4, none) →
        env.clusterRoleBinding = (r5, none) →
        env.role = (r6, none) →
        env.roleBinding = (r7, none) →
        env.csiDriver = (r, some e) →
        reconcileUpdate now env cr = (fullUpdOrder.take 8, (r, some e), cr)) ∧
      (∀ r1 r2 r3 r4 r5 r6 r7 r8 r e, env.daemonSet = (r1, none) →
        env.storagePools = (r2, none) →
        env.serviceAccount = (r3, none) →
        env.clusterRole = (r4, none) →
        env.clusterRoleBinding = (r5, none) →
        env.role = (r6, none) →
        env.roleBinding = (r7, none) →
        env.csiDriver = (r8, none) →
        env.securityContextConstraints = (r, some e) →
        reconcileUpdate now env cr = (fullUpdOrder.take 9, (r, some e), cr)) ∧
      (∀ r1 r2 r3 r4 r5 r6 r7 r8 r9 r e, env.daemonSet = (r1, none) →
        env.storagePools = (r2, none) →
        env.serviceAccount = (r3, none) →
        env.clusterRole = (r4, none) →
        env.clusterRoleBinding = (r5, none) →
        env.role = (r6, none) →
        env.roleBinding = (r7, none) →
        env.csiDriver = (r8, none) →
        env.securityContextConstraints = (r9, none) →
        env.prometheusInfra = (r, some e) →
        reconcileUpdate now env cr = (fullUpdOrder, (r, some e), cr)) ∧
      (∀ r1 r2 r3 r4 r5 r6 r7 r8 r9 r10, env.daemonSet = (r1, none) →
        env.storagePools = (r2, none) →
        env.serviceAccount = (r3, none) →
        env.clusterRole = (r4, none) →
        env.clusterRoleBinding = (r5, none) →
        env.role = (r6, none) →
        env.roleBinding = (r7, none) →
        env.csiDriver = (r8, none) →
        env.securityContextConstraints = (r9, none) →
        env.prometheusInfra = (r10, none) →
        (reconcileUpdate now env cr).1 = fullUpdOrder) := by
  intro now env cr
  refine ⟨?_, ?_, ?_, ?_, ?_, ?_, ?_, ?_, ?_, ?_, ?_⟩
  · intro r e h1
    simp [reconcileUpdate, h1]
  · intro r1 r e h1 h2
    simp [reconcileUpdate, h1, h2, fullUpdOrder]
  · intro r1 r2 r e h1 h2 h3
    simp [reconcileUpdate, h1, h2, h3, fullUpdOrder]
  · intro r1 r2 r3 r e h1 h2 h3 h4
    simp [reconcileUpdate, h1, h2, h3, h4, fullUpdOrder]
  · intro r1 r2 r3 r4 r e h1 h2 h3 h4 h5
    simp [reconcileUpdate, h1, h2, h3, h4, h5, fullUpdOrder]
  · intro r1 r2 r3 r4 r5 r e h1 h2 h3 h4 h5 h6
    simp [reconcileUpdate, h1, h2, h3, h4, h5, h6, fullUpdOrder]
  · intro r1 r2 r3 r4 r5 r6 r e h1 h2 h3 h4 h5 h6 h7
    simp [reconcileUpdate, h1, h2, h3, h4, h5, h6, h7, fullUpdOrder]
  · intro r1 r2 r3 r4 r5 r6 r7 r e h1 h2 h3 h4 h5 h6 h7 h8
    simp [reconcileUpdate, h1, h2, h3, h4, h5, h6, h7, h8, fullUpdOrder]
  · intro r1 r2 r3 r4 r5 r6 r7 r8 r e h1 h2 h3 h4 h5 h6 h7 h8 h9
    simp [reconcileUpdate, h1, h2, h3, h4, h5, h6, h7, h8, h9, fullUpdOrder]
  · intro r1 r2 r3 r4 r5 r6 r7 r8 r9 r e h1 h2 h3 h4 h5 h6 h7 h8 h9 h10
    simp [reconcileUpdate, h1, h2, h3, h4, h5, h6, h7, h8, h9, h10, fullUpdOrder]
  · intro r1 r2 r3 r4 r5 r6 r7 r8 r9 r10 h1 h2 h3 h4 h5 h6 h7 h8 h9 h10
    simp only [reconcileUpdate, h1, h2, h3, h4, h5, h6, h7, h8, h9, h10]
    split
    · rfl
    · split
      · rfl
      · split
        · rfl
        · rfl

/-- Closed instance of `reconcileUpdate_order_spec`: with every step
succeeding, all ten kinds are applied in the fixed order. -/
theorem reconcileUpdate_order_spec_witness :
    (reconcileUpdate 0
      ⟨(Result.empty, none), (Result.empty, none), (Result.empty, none),
        (Result.empty, none), (Result.empty, none), (Result.empty, none),
        (Result.empty, none), (Result.empty, none), (Result.empty, none),
        (Result.empty, none), Except.ok ⟨1, 1⟩, Except.ok ⟨1, 1⟩,
        Except.ok 0, Except.ok true, none⟩
      (default : HostPathProvisioner)).1 = fullUpdOrder := by
  exact (reconcileUpdate_order_spec 0 _ _).2.2.2.2.2.2.2.2.2.2
    Result.empty Result.empty Result.empty Result.empty Result.empty Result.empty
    Result.empty Result.empty Result.empty Result.empty
    rfl rfl rfl rfl rfl rfl rfl rfl rfl rfl

/-- Claim C9: with every reconcile step succeeding and both daemon-set reads
returning, the CR is marked Available/Healthy exactly when, in legacy mode,
both the legacy and the CSI daemon sets are ready, and, in driver-only mode,
when the CSI daemon set alone is ready (the legacy daemon set being ignored);
and the degraded check deems the CR not degraded under exactly the same
condition. -/
theorem availableMarking_spec :
    ∀ (now : Nat) (env : UpdEnv) (cr : HostPathProvisioner)
      (lds cds : DaemonSetStatus)
      (r1 r2 r3 r4 r5 r6 r7 r8 r9 r10 : Result),
      env.daemonSet = (r1, none) →
      env.storagePools = (r2, none) →
      env.serviceAccount = (r3, none) →
      env.clusterRole = (r4, none) →
      env.clusterRoleBinding = (r5, none) →
      env.role = (r6, none) →
      env.roleBinding = (r7, none) →
      env.csiDriver = (r8, none) →
      env.securityContextConstraints = (r9, none) →
      env.prometheusInfra = (r10, none) →
      env.getLegacyDS = Except.ok lds →
      env.getCsiDS = Except.ok cds →
      ((reconcileUpdate now env cr).2.2 =
        if (!isLegacy cr || checkDaemonSetReady lds) && checkDaemonSetReady cds then
          MarkCrHealthyMessage now cr "Complete" "Application Available"
        else cr) ∧
      ((checkDegraded now (Except.ok lds) (Except.ok cds) cr).1 = false ↔
        ((!isLegacy cr || checkDaemonSetReady lds) && checkDaemonSetReady cds) = true) := by
  intro now env cr lds cds r1 r2 r3 r4 r5 r6 r7 r8 r9 r10
    h1 h2 h3 h4 h5 h6 h7 h8 h9 h10 hgl hgc
  constructor
  · simp only [reconcileUpdate, h1, h2, h3, h4, h5, h6, h7, h8, h9, h10]
    cases hleg : isLegacy cr with
    | true =>
      rw [if_pos rfl, hgl, hgc]
      dsimp only
      split
      · rfl
      · rfl
    | false =>
      rw [if_neg (by simp), hgc]
      dsimp only
      simp only [Bool.not_false, Bool.true_or]
      split
      · rfl
      · rfl
  · unfold checkDegraded
    cases hleg : isLegacy cr with
    | true =>
      rw [if_pos rfl]
      simp
    | false =>
      rw [if_neg (by simp)]
      simp

/-- Closed instance of `availableMarking_spec`: a driver-only CR with a ready
CSI daemon set is marked healthy. -/
theorem availableMarking_spec_witness :
    (reconcileUpdate 0
      ⟨(Result.empty, none), (Result.empty, none), (Result.empty, none),
        (Result.empty, none), (Result.empty, none), (Result.empty, none),
        (Result.empty, none), (Result.empty, none), (Result.empty, none),
        (Result.empty, none), Except.ok ⟨0, 0⟩, Except.ok ⟨1, 1⟩,
        Except.ok 1, Except.ok true, none⟩
      (default : HostPathProvisioner)).2.2
      = MarkCrHealthyMessage 0 (default : HostPathProvisioner)
          "Complete" "Application Available" := by
  have h := (availableMarking_spec 0
    ⟨(Result.empty, none), (Result.empty, none), (Result.empty, none),
      (Result.empty, none), (Result.empty, none), (Result.empty, none),
      (Result.empty, none), (Result.empty, none), (Result.empty, none),
      (Result.empty, none), Except.ok ⟨0, 0⟩, Except.ok ⟨1, 1⟩,
      Except.ok 1, Except.ok true, none⟩
    (default : HostPathProvisioner) ⟨0, 0⟩ ⟨1, 1⟩
    Result.empty Result.empty Result.empty Result.empty Result.empty Result.empty
    Result.empty Result.empty Result.empty Result.empty
    rfl rfl rfl rfl rfl rfl rfl rfl rfl rfl rfl rfl).1
  rw [h]
  rfl

end Hpp
